import Mathlib

/-!
Verification development for the Torn Target Tracker website script
(src/app.js, version 3.0.0 half of the file, which is the version the
claims cite).  Each definition is a shallow embedding of the
corresponding JavaScript function; source line numbers are given in
the doc comments.
-/

namespace TTT

/-! ### CONFIG constants (src/app.js lines 491-504) -/

/-- CONFIG.scrollThreshold, line 494. -/
def scrollThreshold : Int := 50

/-- CONFIG.navbarHideThreshold, line 501. -/
def navbarHideThreshold : Int := 5

/-- CONFIG.swipeThreshold, line 499. -/
def swipeThreshold : Int := 50

/-- CONFIG.revealOffset, line 497. -/
def revealOffset : Int := 100

/-! ### Screenshot gallery data model

A tab element carries its data-tab attribute, whether it has the
class active, and its aria-selected / tabindex attributes.  A
screenshot image carries its data-screenshot attribute and whether it
has the class active.  The caption element may be absent
(hasCaptionEl = false), in which case the caption is never written. -/

structure Tab where
  dataTab : String
  active : Bool
  ariaSelected : String
  tabindex : String
deriving DecidableEq, Repr

structure Screenshot where
  dataScreenshot : String
  active : Bool
deriving DecidableEq, Repr

structure GalleryState where
  tabs : List Tab
  screenshots : List Screenshot
  hasCaptionEl : Bool
  captionText : String
deriving DecidableEq, Repr

/-- The captions object, src/app.js lines 533-541. -/
def captions : String → Option String
  | "home" => some "Target Command Center — Your central hub for all operations"
  | "stats" => some "Statistics Dashboard — Real-time insights and analytics"
  | "history" => some "Attack History — Premium timeline of your recent attacks"
  | "npc" => some "NPC Loot Timer — Track loot levels for Torn NPCs and bosses"
  | "bounty" => some "Bounty Tracker — Manage bounty targets and statistics"
  | "ratelimit" => some "Rate Limit Popover — Detailed API rate limit breakdown"
  | "backup" => some "Backup & Restore — Full data backup to file"
  | _ => none

/-- JavaScript NodeList indexing: a negative index or an index at or
beyond the length yields undefined (here: none). -/
def jsIndex (l : List Tab) (index : Int) : Option Tab :=
  if index < 0 then none else l.get? index.toNat

/-- The per-tab update performed inside the forEach of
switchScreenshotTab (src/app.js lines 844-848): classList.toggle
with i === index, aria-selected and tabindex set accordingly. -/
def updateTab (index : Int) (i : Nat) (t : Tab) : Tab :=
  { t with
    active := decide ((i : Int) = index)
    ariaSelected := if (i : Int) = index then "true" else "false"
    tabindex := if (i : Int) = index then "0" else "-1" }

/-- The forEach over screenshotTabs with its running position counter. -/
def updateTabs (index : Int) : Nat → List Tab → List Tab
  | _, [] => []
  | i, t :: rest => updateTab index i t :: updateTabs index (i + 1) rest

/-- switchScreenshotTab, src/app.js lines 834-859.  Guards: empty tab
list returns, undefined tab lookup returns.  Otherwise every tab,
every screenshot and (when present and the caption map has the key)
the caption are updated. -/
def switchScreenshotTab (index : Int) (s : GalleryState) : GalleryState :=
  if s.tabs.length = 0 then s
  else
    match jsIndex s.tabs index with
    | none => s
    | some tab =>
      let target := tab.dataTab
      let tabs := updateTabs index 0 s.tabs
      let screenshots := s.screenshots.map (fun img =>
        { img with active := img.dataScreenshot == target })
      let captionText :=
        if s.hasCaptionEl then
          match captions target with
          | some c => c
          | none => s.captionText
        else s.captionText
      { s with tabs := tabs, screenshots := screenshots, captionText := captionText }

/-- JavaScript Array.prototype.findIndex with its running counter:
returns the position of the first match, or -1 when there is none. -/
def findIndexActive : Nat → List Tab → Int
  | _, [] => -1
  | i, t :: rest => if t.active then (i : Int) else findIndexActive (i + 1) rest

/-- getActiveScreenshotIndex, src/app.js lines 865-868. -/
def getActiveScreenshotIndex (s : GalleryState) : Int :=
  findIndexActive 0 s.tabs

/-! ### Helper lemmas about updateTabs -/

theorem updateTabs_length (index : Int) (k : Nat) (l : List Tab) :
    (updateTabs index k l).length = l.length := by
  induction l generalizing k with
  | nil => rfl
  | cons t rest ih => simp [updateTabs, ih]

theorem updateTabs_getElem (index : Int) (k : Nat) (l : List Tab) (j : Nat)
    (hj : j < (updateTabs index k l).length) (hj2 : j < l.length) :
    (updateTabs index k l)[j] = updateTab index (k + j) l[j] := by
  induction l generalizing k j with
  | nil => simp at hj2
  | cons t rest ih =>
    cases j with
    | zero => simp [updateTabs]
    | succ m =>
      have hm : m < rest.length := by simpa using hj2
      have hm2 : m < (updateTabs index (k + 1) rest).length := by
        rw [updateTabs_length]; exact hm
      simp only [updateTabs, List.getElem_cons_succ]
      rw [ih (k + 1) m hm2 hm]
      have harith : k + 1 + m = k + (m + 1) := by omega
      rw [harith]

theorem findIndexActive_updateTabs (index : Int) (l : List Tab) (k : Nat)
    (hk : (k : Int) ≤ index) (hlt : index < (k : Int) + l.length) :
    findIndexActive k (updateTabs index k l) = index := by
  induction l generalizing k with
  | nil => simp at hlt; omega
  | cons t rest ih =>
    by_cases h : (k : Int) = index
    · simp [updateTabs, findIndexActive, updateTab, h]
    · have hk1 : ((k + 1 : Nat) : Int) ≤ index := by push_cast; omega
      have hlt1 : index < ((k + 1 : Nat) : Int) + rest.length := by
        push_cast at hlt ⊢; simp at hlt; omega
      simp only [updateTabs, findIndexActive, updateTab]
      rw [if_neg (by simp [h])]
      exact ih (k + 1) hk1 hlt1

theorem updateTabs_countP_zero (index : Int) (l : List Tab) (k : Nat)
    (hk : index < (k : Int)) :
    (updateTabs index k l).countP (fun t => t.active) = 0 := by
  induction l generalizing k with
  | nil => rfl
  | cons t rest ih =>
    have hne : ¬ ((k : Int) = index) := by omega
    have hk1 : index < ((k + 1 : Nat) : Int) := by push_cast; omega
    simp only [updateTabs, List.countP_cons, updateTab, hne, decide_False,
      decide_eq_true_eq]
    simp only [ih (k + 1) hk1]
    simp [hne]

theorem updateTabs_countP (index : Int) (l : List Tab) (k : Nat)
    (hk : (k : Int) ≤ index) (hlt : index < (k : Int) + l.length) :
    (updateTabs index k l).countP (fun t => t.active) = 1 := by
  induction l generalizing k with
  | nil => simp at hlt; omega
  | cons t rest ih =>
    by_cases h : (k : Int) = index
    · have htail : index < ((k + 1 : Nat) : Int) := by push_cast; omega
      simp only [updateTabs, List.countP_cons, updateTab, h,
        updateTabs_countP_zero index rest (k + 1) htail]
      simp
    · have hk1 : ((k + 1 : Nat) : Int) ≤ index := by push_cast; omega
      have hlt1 : index < ((k + 1 : Nat) : Int) + rest.length := by
        push_cast at hlt ⊢; simp at hlt; omega
      simp only [updateTabs, List.countP_cons, updateTab]
      rw [ih (k + 1) hk1 hlt1]
      simp [h]

theorem jsIndex_natCast (l : List Tab) (i : Nat) (hi : i < l.length) :
    jsIndex l (i : Int) = some l[i] := by
  unfold jsIndex
  rw [if_neg (by omega)]
  simp [List.get?_eq_getElem?, List.getElem?_eq_getElem hi]

theorem switchScreenshotTab_tabs (s : GalleryState) (i : Nat) (hi : i < s.tabs.length) :
    (switchScreenshotTab (i : Int) s).tabs = updateTabs (i : Int) 0 s.tabs := by
  unfold switchScreenshotTab
  rw [if_neg (by omega), jsIndex_natCast s.tabs i hi]

theorem getActive_switch (s : GalleryState) (i : Nat) (hi : i < s.tabs.length) :
    getActiveScreenshotIndex (switchScreenshotTab (i : Int) s) = (i : Int) := by
  unfold getActiveScreenshotIndex
  rw [switchScreenshotTab_tabs s i hi]
  exact findIndexActive_updateTabs (i : Int) s.tabs 0 (by omega) (by push_cast; omega)

/-- A demonstration gallery with three tabs, matching the markup keys
of the captions object; used only by witnesses. -/
def demoTab (name : String) (act : Bool) : Tab :=
  { dataTab := name, active := act,
    ariaSelected := if act then "true" else "false",
    tabindex := if act then "0" else "-1" }

def demoGallery : GalleryState :=
  { tabs := [demoTab "home" true, demoTab "stats" false, demoTab "history" false],
    screenshots := [{ dataScreenshot := "home", active := true },
                    { dataScreenshot := "stats", active := false },
                    { dataScreenshot := "history", active := false }],
    hasCaptionEl := true,
    captionText := "Target Command Center — Your central hub for all operations" }

/-- Claim C2: for every gallery with N tabs and every index i in
[0, N), switchScreenshotTab i makes tab i the unique tab with the
class active (aria-selected true on tab i, false on all others), so
exactly one tab is active, and reading the active index back with
getActiveScreenshotIndex yields i. -/
theorem claim_C2_switch_unique_active (s : GalleryState) (i : Nat)
    (hi : i < s.tabs.length) :
    (∀ j (hj : j < (switchScreenshotTab (i : Int) s).tabs.length),
        (switchScreenshotTab (i : Int) s).tabs[j].active = decide (j = i)
        ∧ (switchScreenshotTab (i : Int) s).tabs[j].ariaSelected
            = (if j = i then "true" else "false"))
    ∧ (switchScreenshotTab (i : Int) s).tabs.countP (fun t => t.active) = 1
    ∧ getActiveScreenshotIndex (switchScreenshotTab (i : Int) s) = (i : Int) := by
  refine ⟨?_, ?_, getActive_switch s i hi⟩
  · intro j hj
    simp only [switchScreenshotTab_tabs s i hi] at hj ⊢
    have hj2 : j < s.tabs.length := by rwa [updateTabs_length] at hj
    rw [updateTabs_getElem (i : Int) 0 s.tabs j hj hj2]
    have hiff : ((0 + j : Nat) : Int) = (i : Int) ↔ j = i := by
      constructor <;> intro h <;> omega
    constructor
    · simp only [updateTab, decide_eq_decide]
      exact hiff
    · simp only [updateTab]
      by_cases h : j = i
      · rw [if_pos (hiff.mpr h), if_pos h]
      · rw [if_neg (fun hc => h (hiff.mp hc)), if_neg h]
  · rw [switchScreenshotTab_tabs s i hi]
    exact updateTabs_countP (i : Int) s.tabs 0 (by omega) (by push_cast; omega)

/-- Witness for C2 at a concrete three-tab gallery and index 1. -/
theorem claim_C2_witness :
    getActiveScreenshotIndex (switchScreenshotTab 1 demoGallery) = 1 := by
  have h := claim_C2_switch_unique_active demoGallery 1 (by decide)
  simpa using h.2.2

/-- Claim C10: calling switchScreenshotTab with an index outside
[0, N) (negative, at or beyond N, or with an empty tab set) returns
without change: tabs, aria attributes, screenshots and the caption
are all left exactly as they were. -/
theorem claim_C10_out_of_range (s : GalleryState) (index : Int)
    (h : index < 0 ∨ (s.tabs.length : Int) ≤ index ∨ s.tabs.length = 0) :
    switchScreenshotTab index s = s := by
  unfold switchScreenshotTab
  by_cases hlen : s.tabs.length = 0
  · rw [if_pos hlen]
  · rw [if_neg hlen]
    have hnone : jsIndex s.tabs index = none := by
      unfold jsIndex
      rcases h with h1 | h2 | h3
      · rw [if_pos h1]
      · rw [if_neg (by omega)]
        rw [List.get?_eq_getElem?]
        apply List.getElem?_eq_none
        omega
      · exact absurd h3 hlen
    rw [hnone]

/-- Witness for C10 at a negative index on the concrete gallery. -/
theorem claim_C10_witness :
    switchScreenshotTab (-1) demoGallery = demoGallery :=
  claim_C10_out_of_range demoGallery (-1) (Or.inl (by decide))

/-! ### Keyboard navigation (C7) -/

/-- The keydown switch of initScreenshotTabs, src/app.js lines
882-911: the index handed to switchScreenshotTab for each key, none
for keys outside the switch.  index is the position of the tab the
listener is attached to (the current tab). -/
def keydownTargetIndex (key : String) (index : Int) (numTabs : Nat) : Option Int :=
  match key with
  | "ArrowRight" | "ArrowDown" => some ((index + 1) % (numTabs : Int))
  | "ArrowLeft" | "ArrowUp" => some ((index - 1 + (numTabs : Int)) % (numTabs : Int))
  | "Home" => some 0
  | "End" => some ((numTabs : Int) - 1)
  | _ => none

/-- The keydown handler: switch to the computed index, if any. -/
def keydownStep (key : String) (index : Int) (s : GalleryState) : GalleryState :=
  match keydownTargetIndex key index s.tabs.length with
  | some j => switchScreenshotTab j s
  | none => s

theorem getActive_switch_int (s : GalleryState) (j : Int)
    (h0 : 0 ≤ j) (hlt : j < (s.tabs.length : Int)) :
    getActiveScreenshotIndex (switchScreenshotTab j s) = j := by
  obtain ⟨n, rfl⟩ := Int.eq_ofNat_of_zero_le h0
  exact getActive_switch s n (by exact_mod_cast hlt)

theorem keydownStep_eq (key : String) (i : Int) (s : GalleryState) (j : Int)
    (h : keydownTargetIndex key i s.tabs.length = some j) :
    keydownStep key i s = switchScreenshotTab j s := by
  unfold keydownStep
  rw [h]

/-- Claim C7: for a gallery with N tabs and current index i in
[0, N), the key End selects index N-1, Home selects 0, arrow-right
selects (i + 1) mod N (so from N-1 it wraps to 0), and arrow-left
selects (i - 1 + N) mod N. -/
theorem claim_C7_keyboard (s : GalleryState) (i : Int)
    (h0 : 0 ≤ i) (hi : i < (s.tabs.length : Int)) :
    getActiveScreenshotIndex (keydownStep "End" i s) = (s.tabs.length : Int) - 1
    ∧ getActiveScreenshotIndex (keydownStep "Home" i s) = 0
    ∧ getActiveScreenshotIndex (keydownStep "ArrowRight" i s)
        = (i + 1) % (s.tabs.length : Int)
    ∧ (i = (s.tabs.length : Int) - 1 →
        getActiveScreenshotIndex (keydownStep "ArrowRight" i s) = 0)
    ∧ getActiveScreenshotIndex (keydownStep "ArrowLeft" i s)
        = (i - 1 + (s.tabs.length : Int)) % (s.tabs.length : Int) := by
  have hn : (0 : Int) < (s.tabs.length : Int) := by omega
  have hmodR : (i + 1) % (s.tabs.length : Int) < (s.tabs.length : Int) :=
    Int.emod_lt_of_pos _ hn
  have hmodR0 : 0 ≤ (i + 1) % (s.tabs.length : Int) :=
    Int.emod_nonneg _ (by omega)
  have hmodL : (i - 1 + (s.tabs.length : Int)) % (s.tabs.length : Int)
      < (s.tabs.length : Int) := Int.emod_lt_of_pos _ hn
  have hmodL0 : 0 ≤ (i - 1 + (s.tabs.length : Int)) % (s.tabs.length : Int) :=
    Int.emod_nonneg _ (by omega)
  refine ⟨?_, ?_, ?_, ?_, ?_⟩
  · rw [keydownStep_eq "End" i s _ rfl]
    exact getActive_switch_int s _ (by omega) (by omega)
  · rw [keydownStep_eq "Home" i s _ rfl]
    exact getActive_switch_int s _ (by omega) (by omega)
  · rw [keydownStep_eq "ArrowRight" i s _ rfl]
    exact getActive_switch_int s _ hmodR0 hmodR
  · intro hlast
    rw [keydownStep_eq "ArrowRight" i s _ rfl]
    have harith : i + 1 = (s.tabs.length : Int) := by omega
    rw [harith, Int.emod_self]
    exact getActive_switch_int s 0 le_rfl hn
  · rw [keydownStep_eq "ArrowLeft" i s _ rfl]
    exact getActive_switch_int s _ hmodL0 hmodL

/-- Witness for C7 on the concrete three-tab gallery at index 2. -/
theorem claim_C7_witness :
    getActiveScreenshotIndex (keydownStep "End" 2 demoGallery) = 2
    ∧ getActiveScreenshotIndex (keydownStep "ArrowRight" 2 demoGallery) = 0 := by
  have h := claim_C7_keyboard demoGallery 2 (by decide) (by decide)
  refine ⟨?_, ?_⟩
  · have := h.1
    norm_num [demoGallery] at this ⊢
    exact this
  · exact h.2.2.2.1 (by decide)

/-! ### Swipe gestures (C6) -/

/-- handleSwipe, src/app.js lines 1142-1163, with the coordinates
recorded at touchstart and touchend (lines 1130-1140).  Returns the
index handed to switchScreenshotTab, or none when the gesture is
ignored. -/
def handleSwipe (touchStartX touchStartY touchEndX touchEndY : Int)
    (currentIndex : Int) (numTabs : Nat) : Option Int :=
  let diffX := touchStartX - touchEndX
  let diffY := touchStartY - touchEndY
  if |diffX| < swipeThreshold ∨ |diffY| > |diffX| then none
  else if diffX > 0 then some ((currentIndex + 1) % (numTabs : Int))
  else some ((currentIndex - 1 + (numTabs : Int)) % (numTabs : Int))

theorem handleSwipe_none (sx sy ex ey cur : Int) (n : Nat)
    (h : |sx - ex| < swipeThreshold ∨ |sy - ey| > |sx - ex|) :
    handleSwipe sx sy ex ey cur n = none := by
  unfold handleSwipe
  rw [if_pos h]

theorem handleSwipe_next (sx sy ex ey cur : Int) (n : Nat)
    (h1 : swipeThreshold ≤ |sx - ex|) (h2 : |sy - ey| ≤ |sx - ex|)
    (h3 : 0 < sx - ex) :
    handleSwipe sx sy ex ey cur n = some ((cur + 1) % (n : Int)) := by
  unfold handleSwipe
  rw [if_neg (by push_neg; exact ⟨h1, h2⟩), if_pos h3]

theorem handleSwipe_prev (sx sy ex ey cur : Int) (n : Nat)
    (h1 : swipeThreshold ≤ |sx - ex|) (h2 : |sy - ey| ≤ |sx - ex|)
    (h3 : sx - ex < 0) :
    handleSwipe sx sy ex ey cur n
      = some ((cur - 1 + (n : Int)) % (n : Int)) := by
  unfold handleSwipe
  rw [if_neg (by push_neg; exact ⟨h1, h2⟩), if_neg (by omega)]

/-- Claim C6 counterexample: a swipe whose horizontal displacement is
exactly 50px (equal to the threshold, not exceeding it) with zero
vertical displacement does dispatch a transition, refuting the
claimed characterization (dispatch iff the displacement strictly
exceeds 50px). -/
theorem claim_C6_counterexample :
    ¬ ((handleSwipe 50 0 0 0 0 7).isSome = true
        ↔ (|(50 : Int) - 0| > 50 ∧ |(0 : Int) - 0| < |(50 : Int) - 0|)) := by
  decide

/-- Claim C6 amended: a transition is dispatched iff the horizontal
displacement magnitude is AT LEAST the 50px threshold and the
vertical displacement magnitude does not exceed it (the source keeps
the gesture when both comparisons are non-strict); positive diffX
(finger moved left) advances to (cur + 1) mod N, negative diffX goes
to (cur - 1 + N) mod N; in particular 60px horizontal with 10px
vertical advances one index, and 30px horizontal dispatches
nothing. -/
theorem claim_C6_swipe (sx sy ex ey cur : Int) (n : Nat) :
    ((handleSwipe sx sy ex ey cur n).isSome = true
        ↔ (swipeThreshold ≤ |sx - ex| ∧ |sy - ey| ≤ |sx - ex|))
    ∧ (swipeThreshold ≤ |sx - ex| → |sy - ey| ≤ |sx - ex| → 0 < sx - ex →
        handleSwipe sx sy ex ey cur n = some ((cur + 1) % (n : Int)))
    ∧ (swipeThreshold ≤ |sx - ex| → |sy - ey| ≤ |sx - ex| → sx - ex < 0 →
        handleSwipe sx sy ex ey cur n
          = some ((cur - 1 + (n : Int)) % (n : Int)))
    ∧ handleSwipe (ex + 60) (ey + 10) ex ey cur n = some ((cur + 1) % (n : Int))
    ∧ handleSwipe (ex + 30) ey ex ey cur n = none := by
  refine ⟨?_, handleSwipe_next sx sy ex ey cur n,
      handleSwipe_prev sx sy ex ey cur n, ?_, ?_⟩
  · by_cases hg : |sx - ex| < swipeThreshold ∨ |sy - ey| > |sx - ex|
    · rw [handleSwipe_none sx sy ex ey cur n hg]
      simp only [Option.isSome_none, Bool.false_eq_true, false_iff]
      push_neg at hg ⊢
      intro hthr
      omega
    · push_neg at hg
      by_cases hdir : 0 < sx - ex
      · rw [handleSwipe_next sx sy ex ey cur n hg.1 hg.2 hdir]
        simp [hg.1, hg.2]
      · have hneg : sx - ex < 0 := by
          have habs := hg.1
          simp only [swipeThreshold] at habs
          rcases abs_cases (sx - ex) with ⟨he, _⟩ | ⟨_, he⟩ <;> omega
        rw [handleSwipe_prev sx sy ex ey cur n hg.1 hg.2 hneg]
        simp [hg.1, hg.2]
  · apply handleSwipe_next
    · rw [show ex + 60 - ex = 60 by ring]
      decide
    · rw [show ex + 60 - ex = 60 by ring, show ey + 10 - ey = 10 by ring]
      decide
    · omega
  · apply handleSwipe_none
    left
    rw [show ex + 30 - ex = 30 by ring]
    decide

/-- Witness for C6 amended: concrete 100px left swipe from index 2 of
7 lands on index 3. -/
theorem claim_C6_witness :
    handleSwipe 100 0 0 0 2 7 = some 3 := by
  have h := (claim_C6_swipe 100 0 0 0 2 7).2.1 (by decide) (by decide) (by decide)
  simpa using h

/-! ### Autoplay timer (C3)

state.screenshotAutoplay holds the interval handle (lines 507-514:
initially null).  aliveTimers records which interval timers the
platform currently has alive: setInterval (line 922) appends a fresh
handle, clearInterval (line 934) removes it.  reducedMotion is the
live media-query flag. -/

structure AutoplayState where
  screenshotAutoplay : Option Nat
  nextTimerId : Nat
  aliveTimers : List Nat
  reducedMotion : Bool
deriving DecidableEq, Repr

/-- startScreenshotAutoplay, src/app.js lines 919-927: bail out when
a handle is already stored or reduced motion is preferred, otherwise
store a fresh interval handle. -/
def startScreenshotAutoplay (s : AutoplayState) : AutoplayState :=
  if s.screenshotAutoplay.isSome || s.reducedMotion then s
  else
    { s with
      screenshotAutoplay := some s.nextTimerId
      aliveTimers := s.aliveTimers ++ [s.nextTimerId]
      nextTimerId := s.nextTimerId + 1 }

/-- stopScreenshotAutoplay, src/app.js lines 932-937: clearInterval
the stored handle, if any, and null it. -/
def stopScreenshotAutoplay (s : AutoplayState) : AutoplayState :=
  match s.screenshotAutoplay with
  | some h => { s with screenshotAutoplay := none, aliveTimers := s.aliveTimers.erase h }
  | none => s

/-- The events that reach the autoplay controller: direct calls, the
gallery touchstart (line 1133), mouseenter and focusin (lines
1314-1315), the visibilitychange listener (lines 1305-1309), and the
reduced-motion media-query change listener (lines 1297-1302). -/
inductive GalleryEvent
  | callStart
  | callStop
  | touchStart
  | mouseEnter
  | focusIn
  | visibilityHidden
  | visibilityVisible
  | reducedMotionChange (rm : Bool)
deriving DecidableEq, Repr

def autoplayStep : GalleryEvent → AutoplayState → AutoplayState
  | GalleryEvent.callStart, s => startScreenshotAutoplay s
  | GalleryEvent.callStop, s => stopScreenshotAutoplay s
  | GalleryEvent.touchStart, s => stopScreenshotAutoplay s
  | GalleryEvent.mouseEnter, s => stopScreenshotAutoplay s
  | GalleryEvent.focusIn, s => stopScreenshotAutoplay s
  | GalleryEvent.visibilityHidden, s => stopScreenshotAutoplay s
  | GalleryEvent.visibilityVisible, s => s
  | GalleryEvent.reducedMotionChange rm, s =>
      let s2 := { s with reducedMotion := rm }
      if rm then stopScreenshotAutoplay s2 else s2

/-- Page-load state: no handle, no alive timer. -/
def autoplayInit (rm : Bool) : AutoplayState :=
  { screenshotAutoplay := none, nextTimerId := 0, aliveTimers := [], reducedMotion := rm }

def autoplayRun (s : AutoplayState) : List GalleryEvent → AutoplayState
  | [] => s
  | e :: es => autoplayRun (autoplayStep e s) es

/-- The alive timers are exactly the stored handle. -/
def AutoplayInv (s : AutoplayState) : Prop :=
  s.aliveTimers = s.screenshotAutoplay.toList

theorem autoplayInv_stop (s : AutoplayState) (h : AutoplayInv s) :
    AutoplayInv (stopScreenshotAutoplay s) := by
  unfold AutoplayInv at h ⊢
  unfold stopScreenshotAutoplay
  cases hs : s.screenshotAutoplay with
  | none => rw [hs] at h; simpa [hs] using h
  | some hdl =>
    rw [hs] at h
    simp only [hs, h]
    simp [Option.toList]

theorem autoplayInv_start (s : AutoplayState) (h : AutoplayInv s) :
    AutoplayInv (startScreenshotAutoplay s) := by
  unfold AutoplayInv at h ⊢
  unfold startScreenshotAutoplay
  by_cases hc : (s.screenshotAutoplay.isSome || s.reducedMotion) = true
  · rw [if_pos hc]; exact h
  · rw [if_neg hc]
    have hnone : s.screenshotAutoplay = none := by
      cases hs : s.screenshotAutoplay with
      | none => rfl
      | some hdl => rw [hs] at hc; simp at hc
    rw [hnone] at h
    simp only [Option.toList] at h
    simp [h, Option.toList]

theorem autoplayInv_step (e : GalleryEvent) (s : AutoplayState) (h : AutoplayInv s) :
    AutoplayInv (autoplayStep e s) := by
  cases e with
  | callStart => exact autoplayInv_start s h
  | callStop => exact autoplayInv_stop s h
  | touchStart => exact autoplayInv_stop s h
  | mouseEnter => exact autoplayInv_stop s h
  | focusIn => exact autoplayInv_stop s h
  | visibilityHidden => exact autoplayInv_stop s h
  | visibilityVisible => exact h
  | reducedMotionChange rm =>
    simp only [autoplayStep]
    by_cases hrm : rm = true
    · rw [if_pos hrm]
      exact autoplayInv_stop _ h
    · rw [if_neg hrm]
      exact h

theorem autoplayInv_run (s : AutoplayState) (h : AutoplayInv s)
    (es : List GalleryEvent) : AutoplayInv (autoplayRun s es) := by
  induction es generalizing s with
  | nil => exact h
  | cons e rest ih => exact ih (autoplayStep e s) (autoplayInv_step e s h)

theorem stop_handle_none (s : AutoplayState) :
    (stopScreenshotAutoplay s).screenshotAutoplay = none := by
  unfold stopScreenshotAutoplay
  cases hs : s.screenshotAutoplay <;> simp [hs]

/-- Claim C3: for every sequence of gallery events, at most one
autoplay timer is alive at any time; calling startScreenshotAutoplay
while a handle is stored is a no-op; under reduced motion
startScreenshotAutoplay never creates a timer; and the handle is
cleared by every gallery interaction event (touchstart, mouseenter,
focusin) and when the document becomes hidden. -/
theorem claim_C3_autoplay :
    (∀ (rm : Bool) (es : List GalleryEvent),
        (autoplayRun (autoplayInit rm) es).aliveTimers.length ≤ 1)
    ∧ (∀ s : AutoplayState, s.screenshotAutoplay.isSome = true →
        startScreenshotAutoplay s = s)
    ∧ (∀ s : AutoplayState, s.reducedMotion = true →
        startScreenshotAutoplay s = s)
    ∧ (∀ s : AutoplayState,
        (autoplayStep GalleryEvent.touchStart s).screenshotAutoplay = none
        ∧ (autoplayStep GalleryEvent.mouseEnter s).screenshotAutoplay = none
        ∧ (autoplayStep GalleryEvent.focusIn s).screenshotAutoplay = none
        ∧ (autoplayStep GalleryEvent.visibilityHidden s).screenshotAutoplay = none) := by
  refine ⟨?_, ?_, ?_, ?_⟩
  · intro rm es
    have hinv : AutoplayInv (autoplayRun (autoplayInit rm) es) :=
      autoplayInv_run (autoplayInit rm) rfl es
    rw [hinv]
    cases (autoplayRun (autoplayInit rm) es).screenshotAutoplay <;> simp [Option.toList]
  · intro s hs
    unfold startScreenshotAutoplay
    rw [if_pos (by simp [hs])]
  · intro s hs
    unfold startScreenshotAutoplay
    rw [if_pos (by simp [hs])]
  · intro s
    exact ⟨stop_handle_none s, stop_handle_none s, stop_handle_none s, stop_handle_none s⟩

/-- Witness for C3: a double start from a fresh state leaves at most
one alive timer, and a start on a busy state is a no-op. -/
theorem claim_C3_witness :
    (autoplayRun (autoplayInit false)
        [GalleryEvent.callStart, GalleryEvent.callStart]).aliveTimers.length ≤ 1
    ∧ startScreenshotAutoplay
        { screenshotAutoplay := some 0, nextTimerId := 1,
          aliveTimers := [0], reducedMotion := false }
      = { screenshotAutoplay := some 0, nextTimerId := 1,
          aliveTimers := [0], reducedMotion := false } :=
  ⟨claim_C3_autoplay.1 false _, claim_C3_autoplay.2.1 _ (by decide)⟩

/-! ### Scroll reveal (C4)

A reveal element is represented by whether it has the class visible.
Events carry the geometry read at event time. -/

inductive RevealEvent
  | observerCb (isIntersecting : Bool)
  | scrollFallback (top windowHeight : Int)
  | reducedMotionChange (rm : Bool)
deriving DecidableEq, Repr

/-- One event applied to one reveal element.  The observer callback
(src/app.js lines 953-959) adds the class when intersecting and never
removes it; the fallback (lines 975-985) adds the class when the top
is within windowHeight - revealOffset and touches nothing else; the
reduced-motion change listener (lines 1297-1302) does not touch
reveal elements at all. -/
def revealStep : RevealEvent → Bool → Bool
  | RevealEvent.observerCb inter, visible => if inter then true else visible
  | RevealEvent.scrollFallback top wh, visible =>
      if visible = false ∧ top < wh - revealOffset then true else visible
  | RevealEvent.reducedMotionChange _, visible => visible

def revealRun (visible : Bool) (evs : List RevealEvent) : Bool :=
  evs.foldl (fun v e => revealStep e v) visible

/-- initScrollReveal, src/app.js lines 944-950: under reduced motion
every reveal element gets the class visible immediately. -/
def initScrollRevealVisible (rm : Bool) (visibles : List Bool) : List Bool :=
  if rm then visibles.map (fun _ => true) else visibles

/-- Claim C4: once a reveal element carries the class visible, no
subsequent observer callback, fallback scroll check or reduced-motion
change removes it (the transition is one-way); and when reduced
motion is preferred at initialization, every reveal element is marked
visible immediately. -/
theorem claim_C4_reveal_one_way :
    (∀ evs : List RevealEvent, revealRun true evs = true)
    ∧ (∀ visibles : List Bool,
        (initScrollRevealVisible true visibles).all (fun v => v) = true) := by
  constructor
  · intro evs
    induction evs with
    | nil => rfl
    | cons e es ih =>
      have hstep : revealStep e true = true := by
        cases e with
        | observerCb inter => cases inter <;> rfl
        | scrollFallback top wh => simp [revealStep]
        | reducedMotionChange rm => rfl
      simpa [revealRun, hstep] using ih
  · intro visibles
    simp [initScrollRevealVisible, List.all_eq_true]

/-! ### Navbar auto-hide and the viewport state (C8, C9) -/

structure NavState where
  lastScrollY : Int
  scrollDirection : String
  isNavbarHidden : Bool
  scrolled : Bool
  transform : String
deriving DecidableEq, Repr

/-- The state object literal, src/app.js lines 507-514 (the fields
handleNavbarScroll touches, plus scrollDirection), and the initial
navbar presentation. -/
def navInit : NavState :=
  { lastScrollY := 0, scrollDirection := "up", isNavbarHidden := false,
    scrolled := false, transform := "translateY(0)" }

/-- handleNavbarScroll, src/app.js lines 741-766.  mobile is the
result of the isMobile() width check at event time; currentScrollY is
window.scrollY.  Note the function never writes
state.scrollDirection. -/
def handleNavbarScroll (mobile : Bool) (currentScrollY : Int) (s : NavState) : NavState :=
  let scrollDiff := currentScrollY - s.lastScrollY
  let scrolled := decide (currentScrollY > scrollThreshold)
  if mobile = false ∧ currentScrollY > scrollThreshold * 2 then
    if scrollDiff > navbarHideThreshold ∧ s.isNavbarHidden = false then
      { s with lastScrollY := currentScrollY, scrolled := scrolled,
               transform := "translateY(-100%)", isNavbarHidden := true }
    else if scrollDiff < -navbarHideThreshold ∧ s.isNavbarHidden = true then
      { s with lastScrollY := currentScrollY, scrolled := scrolled,
               transform := "translateY(0)", isNavbarHidden := false }
    else
      { s with lastScrollY := currentScrollY, scrolled := scrolled }
  else
    { s with lastScrollY := currentScrollY, scrolled := scrolled,
             transform := "translateY(0)", isNavbarHidden := false }

/-- Claim C8: with previous offset p = s.lastScrollY and current
offset c, the navbar becomes hidden exactly when the device is not
mobile, c exceeds 100px (twice the 50px scrolled threshold) and the
downward delta c - p exceeds 5px; from the hidden state it becomes
shown exactly on an upward delta p - c exceeding 5px or when the
offset is at or below the threshold or the device is mobile; and it
is always shown when the offset is at or below the threshold or the
device class is mobile. -/
theorem claim_C8_navbar (mobile : Bool) (c : Int) (s : NavState) :
    (s.isNavbarHidden = false →
      ((handleNavbarScroll mobile c s).isNavbarHidden = true
        ↔ (mobile = false ∧ c > 100 ∧ c - s.lastScrollY > 5)))
    ∧ (s.isNavbarHidden = true →
      ((handleNavbarScroll mobile c s).isNavbarHidden = false
        ↔ (mobile = true ∨ c ≤ 100 ∨ s.lastScrollY - c > 5)))
    ∧ ((mobile = true ∨ c ≤ 100) →
      (handleNavbarScroll mobile c s).isNavbarHidden = false) := by
  obtain ⟨p, dir, hid, scr, tr⟩ := s
  cases hid <;> cases mobile <;>
    simp only [handleNavbarScroll, scrollThreshold, navbarHideThreshold] <;>
    split_ifs <;> simp_all <;> omega

/-- Witness for C8: from the initial shown state, a jump to offset
200 (delta 200 > 5) on desktop hides the navbar. -/
theorem claim_C8_witness :
    (handleNavbarScroll false 200 navInit).isNavbarHidden = true := by
  have h := (claim_C8_navbar false 200 navInit).1 (by decide)
  exact h.mpr (by norm_num [navInit])

/-- Claim C9 counterexample: a processed scroll event with a positive
offset delta (0 to 200) is claimed to set the tracked direction to
down, but the code never writes state.scrollDirection: it still
reads up. -/
theorem claim_C9_counterexample :
    (200 : Int) - navInit.lastScrollY > 0
    ∧ ¬ ((handleNavbarScroll false 200 navInit).scrollDirection = "down") := by
  constructor
  · decide
  · decide

/-- Claim C9 amended: the tracked scroll direction is never updated
by scroll processing — handleNavbarScroll leaves scrollDirection
untouched for every input, so after any sequence of processed scroll
events it is still the initial value up, whatever the deltas were. -/
theorem claim_C9_direction_never_updated :
    (∀ (mobile : Bool) (c : Int) (s : NavState),
      (handleNavbarScroll mobile c s).scrollDirection = s.scrollDirection)
    ∧ (∀ steps : List (Bool × Int),
      (steps.foldl (fun st p => handleNavbarScroll p.1 p.2 st) navInit).scrollDirection
        = "up") := by
  have hstep : ∀ (mobile : Bool) (c : Int) (s : NavState),
      (handleNavbarScroll mobile c s).scrollDirection = s.scrollDirection := by
    intro mobile c s
    simp only [handleNavbarScroll]
    split_ifs <;> rfl
  refine ⟨hstep, ?_⟩
  have hfold : ∀ (steps : List (Bool × Int)) (s : NavState),
      (steps.foldl (fun st p => handleNavbarScroll p.1 p.2 st) s).scrollDirection
        = s.scrollDirection := by
    intro steps
    induction steps with
    | nil => intro s; rfl
    | cons p rest ih =>
      intro s
      rw [List.foldl_cons, ih (handleNavbarScroll p.1 p.2 s), hstep]
  intro steps
  rw [hfold steps navInit]
  rfl

/-! ### Animated counters (C5)

updateCount inside animateCounter, src/app.js lines 1462-1485,
expressed as the displayed numeric value as a function of the target
and the elapsed milliseconds, in exact rational arithmetic. -/

def updateCount (target : Int) (elapsed : ℚ) : Int :=
  let progress := min (elapsed / 2000) 1
  let easeOutQuart := 1 - (1 - progress) ^ 4
  if progress < 1 then ⌊easeOutQuart * (target : ℚ)⌋ else target

theorem updateCount_formula (target : Int) (elapsed : ℚ) :
    updateCount target elapsed
      = ⌊(target : ℚ) * (1 - (1 - min (elapsed / 2000) 1) ^ 4)⌋ := by
  unfold updateCount
  by_cases h : min (elapsed / 2000) 1 < 1
  · rw [if_pos h, mul_comm]
  · rw [if_neg h]
    have h1 : min (elapsed / 2000) 1 = 1 :=
      le_antisymm (min_le_right _ _) (not_lt.mp h)
    rw [h1]
    norm_num

theorem updateCount_mono (target : Int) (ht : 0 ≤ target)
    (e1 e2 : ℚ) (h0 : 0 ≤ e1) (h12 : e1 ≤ e2) :
    updateCount target e1 ≤ updateCount target e2 := by
  rw [updateCount_formula, updateCount_formula]
  apply Int.floor_le_floor
  have htq : (0 : ℚ) ≤ (target : ℚ) := by exact_mod_cast ht
  apply mul_le_mul_of_nonneg_left _ htq
  have hp1nn : (0 : ℚ) ≤ min (e1 / 2000) 1 :=
    le_min (by positivity) (by norm_num)
  have hple : min (e1 / 2000) 1 ≤ min (e2 / 2000) 1 :=
    min_le_min ((div_le_div_right (by norm_num)).mpr h12) le_rfl
  have hp2le : min (e2 / 2000) 1 ≤ 1 := min_le_right _ _
  have hsub : (0 : ℚ) ≤ 1 - min (e2 / 2000) 1 := by linarith
  have hsuble : 1 - min (e2 / 2000) 1 ≤ 1 - min (e1 / 2000) 1 := by linarith
  have hpow : (1 - min (e2 / 2000) 1) ^ 4 ≤ (1 - min (e1 / 2000) 1) ^ 4 :=
    pow_le_pow_left hsub hsuble 4
  linarith

theorem updateCount_done (target : Int) (e : ℚ) (he : 2000 ≤ e) :
    updateCount target e = target := by
  unfold updateCount
  have h1 : (1 : ℚ) ≤ e / 2000 := by
    rw [le_div_iff (by norm_num)]
    linarith
  rw [min_eq_right h1, if_neg (lt_irrefl 1)]

/-- Claim C5 counterexample: for the (integer) target -1 the display
is NOT monotone on [0, 2000]: at elapsed 0 it shows 0, at elapsed
2000 it shows -1. -/
theorem claim_C5_counterexample :
    (0 : ℚ) ≤ 0 ∧ (0 : ℚ) ≤ 2000 ∧ (2000 : ℚ) ≤ 2000
    ∧ ¬ (updateCount (-1) 0 ≤ updateCount (-1) 2000) := by
  refine ⟨le_refl _, by norm_num, le_refl _, ?_⟩
  have h0 : updateCount (-1) 0 = 0 := by
    rw [updateCount_formula]
    norm_num
  have h2 : updateCount (-1) 2000 = -1 := updateCount_done (-1) 2000 (by norm_num)
  rw [h0, h2]
  norm_num

/-- Claim C5 amended: for every counter element the displayed value
equals floor(target * (1 - (1 - t)^4)) with t = min(elapsed/2000, 1);
for every NONNEGATIVE integer target the display is monotonically
non-decreasing in elapsed time on [0, 2000]; and for target 1000 the
display is exactly 1000 at every elapsed time at or beyond 2000ms. -/
theorem claim_C5_counter (target : Int) (e : ℚ) :
    (updateCount target e
        = ⌊(target : ℚ) * (1 - (1 - min (e / 2000) 1) ^ 4)⌋)
    ∧ (0 ≤ target → ∀ e1 e2 : ℚ, 0 ≤ e1 → e1 ≤ e2 → e2 ≤ 2000 →
        updateCount target e1 ≤ updateCount target e2)
    ∧ (2000 ≤ e → updateCount 1000 e = 1000) :=
  ⟨updateCount_formula target e,
   fun ht e1 e2 h0 h12 _ => updateCount_mono target ht e1 e2 h0 h12,
   fun he => updateCount_done 1000 e he⟩

/-- Witness for C5 amended at target 1000: the formula holds at
elapsed 1000, the display is monotone between 500 and 1500, and the
final value is exact at 2500. -/
theorem claim_C5_witness :
    updateCount 1000 500 ≤ updateCount 1000 1500
    ∧ updateCount 1000 2500 = 1000 := by
  refine ⟨(claim_C5_counter 1000 0).2.1 (by norm_num) 500 1500
      (by norm_num) (by norm_num) (by norm_num), ?_⟩
  exact (claim_C5_counter 1000 2500).2.2 (by norm_num)

/-! ### Initialization (C1)

init, src/app.js lines 1564-1608: all the step calls sit inside ONE
try block (lines 1567-1604); the single catch clause (lines
1605-1607) logs the error and returns normally. -/

/-- The statements inside the try block of init, in source order
(lines 1568-1603; the requestAnimationFrame registration for
preloadImages and the logPerformance call included). -/
def initTrySteps : List String :=
  ["initAccessibility", "generateParticles", "initImageLoadHandlers",
   "initLazyLoading", "initScreenshotTabs", "initSmoothScroll",
   "initDropdownMenus", "initEventListeners", "initBackToTop",
   "initSwipeGestures", "initKeyboardShortcuts", "initScrollReveal",
   "initActiveSectionTracking", "initParallax", "handleNavbarScroll",
   "handleBackToTop", "initAnimatedCounters", "initContextMenuPrevention",
   "initCopyProtection", "schedulePreloadImages", "logPerformance"]

/-- Straight-line execution of the try body over step positions:
statements run in order until one throws.  Returns the positions that
started executing and the position of the throwing one, if any. -/
def runTryBody (throws : Nat → Bool) : List Nat → List Nat × Option Nat
  | [] => ([], none)
  | i :: rest =>
    if throws i then ([i], some i)
    else
      let r := runTryBody throws rest
      (i :: r.1, r.2)

/-- init: run the try body over all step positions; the catch clause
swallows any exception, so the final Bool — whether an exception
escapes init — is always false. -/
def initRun (throws : Nat → Bool) : (List Nat × Option Nat) × Bool :=
  (runTryBody throws (List.range initTrySteps.length), false)

/-- Claim C1 counterexample: when the first step
(initAccessibility) throws, the second step (generateParticles) does
NOT run — the single try/catch stops the whole sequence, it does not
isolate individual triggers. -/
theorem claim_C1_counterexample :
    1 < initTrySteps.length
    ∧ ¬ (1 ∈ (initRun (fun i => i == 0)).1.1) := by
  decide

theorem runTryBody_single (k : Nat) :
    ∀ (n s : Nat), s ≤ k → k < s + n →
    runTryBody (fun i => i == k) (List.range' s n)
      = (List.range' s (k - s + 1), some k) := by
  intro n
  induction n with
  | zero => intro s h1 h2; omega
  | succ m ih =>
    intro s h1 h2
    have hcons : List.range' s (m + 1) = s :: List.range' (s + 1) m := rfl
    rw [hcons]
    by_cases h : s = k
    · subst h
      have hthr : (s == s) = true := by simp
      simp only [runTryBody, hthr, if_true]
      have hone : s - s + 1 = 1 := by omega
      rw [hone]
      rfl
    · have hsk : s < k := by omega
      have hthr : (s == k) = false := by simp; omega
      simp only [runTryBody, hthr, Bool.false_eq_true, if_false]
      rw [ih (s + 1) (by omega) (by omega)]
      have hlen : k - s + 1 = (k - (s + 1) + 1) + 1 := by omega
      rw [hlen]
      rfl

/-- Claim C1 amended: initialization is wrapped in a SINGLE
try/catch, so no single trigger failure is fatal (the exception never
escapes init), but a trigger that throws stops every later step:
under a single failure at position k exactly the steps 0..k start
running, the throw is recorded at k, and nothing propagates. -/
theorem claim_C1_single_failure (k : Nat) (hk : k < initTrySteps.length) :
    (initRun (fun i => i == k)).1.1 = List.range (k + 1)
    ∧ (initRun (fun i => i == k)).1.2 = some k
    ∧ (initRun (fun i => i == k)).2 = false := by
  have h := runTryBody_single k initTrySteps.length 0 (by omega) (by omega)
  have hr : List.range initTrySteps.length = List.range' 0 initTrySteps.length :=
    List.range_eq_range' initTrySteps.length
  have hr2 : List.range (k + 1) = List.range' 0 (k + 1) :=
    List.range_eq_range' (k + 1)
  refine ⟨?_, ?_, rfl⟩
  · show (runTryBody (fun i => i == k) (List.range initTrySteps.length)).1
        = List.range (k + 1)
    rw [hr, h, hr2]
    norm_num
  · show (runTryBody (fun i => i == k) (List.range initTrySteps.length)).2
        = some k
    rw [hr, h]

/-- Witness for C1 amended: a failure at step 3 (initLazyLoading)
runs exactly steps 0..3 and is not fatal. -/
theorem claim_C1_witness :
    (initRun (fun i => i == 3)).1.1 = List.range 4
    ∧ (initRun (fun i => i == 3)).2 = false := by
  have h := claim_C1_single_failure 3 (by decide)
  exact ⟨h.1, h.2.2⟩

end TTT
